import Mathlib

/-!
Verification of the usque configuration and SOCKS command layer.

Shallow embedding of:
  - src/config/config.go : the Config data model, LoadConfig, SaveConfig,
    GetEcPrivateKey, GetEcEndpointPublicKey, and the Duration JSON wrapper
    (the wrapper type itself is absent from the snapshot; it is evidenced by
    config_test.go and socks.go and modelled from the spec).
  - src/cmd/root.go : rootCmd.Run.
  - src/cmd/socks.go : socksCmd.Run, as a function from configuration, flag
    values and abstracted external library results to the list of observable
    events (prints, warnings, tunnel/proxy starts).

JSON is modelled at the value (AST) level: encoding/json text serialisation,
string escaping and number formatting are below the abstraction level of the
claims, which are all about values.
-/

/-- A JSON value. Numbers are restricted to integers: every number the Go
program writes into a config file is an integer (ports, byte counts and
nanosecond durations), and the decoder is only applied to such documents. -/
inductive Json where
  | null
  | bool (b : Bool)
  | num (n : Int)
  | str (s : String)
  | arr (xs : List Json)
  | obj (fields : List (String × Json))

/-- Field lookup in a JSON object, last binding wins, as in encoding/json
where a later duplicate key overwrites an earlier one. -/
def getField (fields : List (String × Json)) (k : String) : Option Json :=
  fields.foldl (fun acc kv => if kv.1 = k then some kv.2 else acc) none

/-- The value of one base64 alphabet character (RFC 4648, standard
alphabet), as used by Go encoding/base64 StdEncoding. -/
def b64Val (c : Char) : Option Nat :=
  if 'A' ≤ c ∧ c ≤ 'Z' then some (c.toNat - 65)
  else if 'a' ≤ c ∧ c ≤ 'z' then some (c.toNat - 97 + 26)
  else if '0' ≤ c ∧ c ≤ '9' then some (c.toNat - 48 + 52)
  else if c = '+' then some 62
  else if c = '/' then some 63
  else none

/-- Decode a base64 character stream four characters at a time, producing the
byte values. Padding with = is accepted only in the final quad, as in Go
encoding/base64 StdEncoding (which, like this model, does not reject
non-zero trailing bits). -/
def base64Quads : List Char → Option (List Nat)
  | [] => some []
  | a :: b :: c :: d :: rest => do
    let va ← b64Val a
    let vb ← b64Val b
    if c = '=' then
      if d = '=' ∧ rest = [] then
        some [va * 4 + vb / 16]
      else none
    else do
      let vc ← b64Val c
      if d = '=' then
        if rest = [] then some [va * 4 + vb / 16, vb % 16 * 16 + vc / 4] else none
      else do
        let vd ← b64Val d
        let more ← base64Quads rest
        some ([va * 4 + vb / 16, vb % 16 * 16 + vc / 4, vc % 4 * 64 + vd] ++ more)
  | _ => none

/-- Go base64.StdEncoding.DecodeString: carriage returns and newlines are
skipped, everything else must be alphabet characters in padded quads. -/
def base64Decode (s : String) : Option (List Nat) :=
  base64Quads (s.toList.filter (fun c => ¬(c = '\r' ∨ c = '\n')))

/-- Nanoseconds per duration unit, longest unit name first so that the
match is unambiguous (ms before m). -/
def durUnitNanos : List Char → Option (Int × List Char)
  | 'n' :: 's' :: r => some (1, r)
  | 'u' :: 's' :: r => some (1000, r)
  | 'm' :: 's' :: r => some (1000000, r)
  | 's' :: r => some (1000000000, r)
  | 'm' :: r => some (60000000000, r)
  | 'h' :: r => some (3600000000000, r)
  | _ => none

/-- The digits of a decimal literal as a number. -/
def digitsToNat (ds : List Char) : Nat :=
  ds.foldl (fun a c => a * 10 + (c.toNat - 48)) 0

/-- One or more components of the form digits-then-unit, summed in
nanoseconds, with fuel bounding the recursion by the input length. -/
def parseComps : Nat → List Char → Option Int
  | 0, _ => none
  | _ + 1, [] => some 0
  | fuel + 1, l =>
    let ds := l.takeWhile (fun c => c.isDigit)
    let rest := l.dropWhile (fun c => c.isDigit)
    if ds = [] then none
    else
      match durUnitNanos rest with
      | none => none
      | some (u, rest2) =>
        (parseComps fuel rest2).map (fun acc => (digitsToNat ds : Int) * u + acc)

/-- Modelled from the spec: the string form accepted by the Duration
wrapper, as in Go time.ParseDuration restricted to unsigned integer
components (the forms the spec names, such as 3s and 1m, and their
multi-component combinations such as 1m30s; signs and fractional
components are out of scope of the claims). "0" alone is a valid zero
duration; the empty string and a bare number without unit are errors. -/
def parseGoDuration (s : String) : Option Int :=
  let l := s.toList
  if l = [] then none
  else if l = ['0'] then some 0
  else parseComps (l.length + 1) l

/-- Modelled from the spec: the Duration wrapper type is referenced by
config_test.go and socks.go but its definition is not in the snapshot;
per the spec it is a small wrapper with two-variant parsing, accepting
either an integer nanosecond count or a Go duration string. -/
def Duration.unmarshalJson : Json → Option Int
  | .num n => some n
  | .str s => parseGoDuration s
  | _ => none

/-- Modelled from the spec: the Duration wrapper serialises as its integer
nanosecond count (the spec requires only that the serialised form reload
to the same numeric value, which holds for the integer form since the
unmarshaller accepts integers verbatim). -/
def Duration.marshalJson (d : Int) : Json := .num d

/-- config.go: ProxyServerConfig. The snapshot shows BindAddress, Port,
Username and Password; Enabled, TCPBuf, UDPBuf and Timeout are evidenced
by root.go, socks.go and config_test.go (the snapshot of the struct
predates them), with JSON keys modelled in the same snake-case scheme.
Durations are nanosecond counts; buffer sizes are Go ints. -/
structure ProxyServerConfig where
  bindAddress : String
  port : String
  username : String
  password : String
  enabled : Bool
  tcpBuf : Int
  udpBuf : Int
  timeout : Int
deriving Repr, DecidableEq

/-- config.go: TunnelConfig. The five duration fields use the Duration
wrapper (per config_test.go); connect_port and mtu are Go ints and
initial_packet_size a uint16. -/
structure TunnelConfig where
  connectPort : Int
  dns : List String
  dnsTimeout : Int
  useIPv6 : Bool
  noTunnelIPv4 : Bool
  noTunnelIPv6 : Bool
  sniAddress : String
  keepalivePeriod : Int
  mtu : Int
  initialPacketSize : Int
  reconnectDelay : Int
  connectionTimeout : Int
  idleTimeout : Int
deriving Repr, DecidableEq

/-- config.go: Config, the application configuration. -/
structure Config where
  privateKey : String
  endpointV4 : String
  endpointV6 : String
  endpointPubKey : String
  license : String
  id : String
  accessToken : String
  ipv4 : String
  ipv6 : String
  socks : ProxyServerConfig
  http : ProxyServerConfig
  tunnel : TunnelConfig
deriving Repr, DecidableEq

/-- The Go zero value of ProxyServerConfig. -/
def ProxyServerConfig.zero : ProxyServerConfig :=
  ⟨"", "", "", "", false, 0, 0, 0⟩

/-- The Go zero value of TunnelConfig. -/
def TunnelConfig.zero : TunnelConfig :=
  ⟨0, [], 0, false, false, false, "", 0, 0, 0, 0, 0, 0⟩

/-- The Go zero value of Config, the state of AppConfig before any load. -/
def Config.zero : Config :=
  ⟨"", "", "", "", "", "", "", "", "", ProxyServerConfig.zero, ProxyServerConfig.zero, TunnelConfig.zero⟩

/-- True when n fits a 64-bit signed integer, the range of a Go int and of
time.Duration. -/
def int64InRange (n : Int) : Bool :=
  decide (-9223372036854775808 ≤ n) && decide (n ≤ 9223372036854775807)

/-- True when n fits a Go uint16. -/
def uint16InRange (n : Int) : Bool :=
  decide (0 ≤ n) && decide (n ≤ 65535)

/-- encoding/json decode of a JSON value into a string field: an absent or
null value leaves the existing value, a string replaces it, any other
shape is a decode error. -/
def decStr (base : String) : Option Json → Option String
  | none => some base
  | some .null => some base
  | some (.str s) => some s
  | some _ => none

/-- encoding/json decode into a bool field. -/
def decBool (base : Bool) : Option Json → Option Bool
  | none => some base
  | some .null => some base
  | some (.bool b) => some b
  | some _ => none

/-- encoding/json decode into a Go int field: the number must fit int64. -/
def decInt64 (base : Int) : Option Json → Option Int
  | none => some base
  | some .null => some base
  | some (.num n) => if int64InRange n then some n else none
  | some _ => none

/-- encoding/json decode into a uint16 field. -/
def decUInt16 (base : Int) : Option Json → Option Int
  | none => some base
  | some .null => some base
  | some (.num n) => if uint16InRange n then some n else none
  | some _ => none

/-- encoding/json decode into a []string field: null sets the slice to nil
(modelled as the empty list; a nil and an empty slice are not
distinguished), an array of strings replaces it. -/
def decStrList (base : List String) : Option Json → Option (List String)
  | none => some base
  | some .null => some []
  | some (.arr xs) => xs.mapM (fun j => match j with | .str s => some s | _ => none)
  | some _ => none

/-- Decode into a Duration field via the wrapper; absent and null leave the
existing value. -/
def decDuration (base : Int) : Option Json → Option Int
  | none => some base
  | some .null => some base
  | some j => Duration.unmarshalJson j

/-- JSON encoding of ProxyServerConfig, mirroring its field tags. -/
def ProxyServerConfig.toJson (c : ProxyServerConfig) : Json :=
  .obj [("bind_address", .str c.bindAddress),
        ("port", .str c.port),
        ("username", .str c.username),
        ("password", .str c.password),
        ("enabled", .bool c.enabled),
        ("tcp_buf", .num c.tcpBuf),
        ("udp_buf", .num c.udpBuf),
        ("timeout", Duration.marshalJson c.timeout)]

/-- encoding/json decode of a JSON value into an existing ProxyServerConfig
(Go decodes into the addressed struct, so absent fields keep their current
values). -/
def ProxyServerConfig.fromJsonInto (base : ProxyServerConfig) : Json → Option ProxyServerConfig
  | .null => some base
  | .obj fs => do
    let bindAddress ← decStr base.bindAddress (getField fs "bind_address")
    let port ← decStr base.port (getField fs "port")
    let username ← decStr base.username (getField fs "username")
    let password ← decStr base.password (getField fs "password")
    let enabled ← decBool base.enabled (getField fs "enabled")
    let tcpBuf ← decInt64 base.tcpBuf (getField fs "tcp_buf")
    let udpBuf ← decInt64 base.udpBuf (getField fs "udp_buf")
    let timeout ← decDuration base.timeout (getField fs "timeout")
    some ⟨bindAddress, port, username, password, enabled, tcpBuf, udpBuf, timeout⟩
  | _ => none

/-- JSON encoding of TunnelConfig, mirroring its field tags. -/
def TunnelConfig.toJson (c : TunnelConfig) : Json :=
  .obj [("connect_port", .num c.connectPort),
        ("dns", .arr (c.dns.map (fun s => .str s))),
        ("dns_timeout", Duration.marshalJson c.dnsTimeout),
        ("use_ipv6", .bool c.useIPv6),
        ("no_tunnel_ipv4", .bool c.noTunnelIPv4),
        ("no_tunnel_ipv6", .bool c.noTunnelIPv6),
        ("sni_address", .str c.sniAddress),
        ("keepalive_period", Duration.marshalJson c.keepalivePeriod),
        ("mtu", .num c.mtu),
        ("initial_packet_size", .num c.initialPacketSize),
        ("reconnect_delay", Duration.marshalJson c.reconnectDelay),
        ("connection_timeout", Duration.marshalJson c.connectionTimeout),
        ("idle_timeout", Duration.marshalJson c.idleTimeout)]

/-- encoding/json decode of a JSON value into an existing TunnelConfig. -/
def TunnelConfig.fromJsonInto (base : TunnelConfig) : Json → Option TunnelConfig
  | .null => some base
  | .obj fs => do
    let connectPort ← decInt64 base.connectPort (getField fs "connect_port")
    let dns ← decStrList base.dns (getField fs "dns")
    let dnsTimeout ← decDuration base.dnsTimeout (getField fs "dns_timeout")
    let useIPv6 ← decBool base.useIPv6 (getField fs "use_ipv6")
    let noTunnelIPv4 ← decBool base.noTunnelIPv4 (getField fs "no_tunnel_ipv4")
    let noTunnelIPv6 ← decBool base.noTunnelIPv6 (getField fs "no_tunnel_ipv6")
    let sniAddress ← decStr base.sniAddress (getField fs "sni_address")
    let keepalivePeriod ← decDuration base.keepalivePeriod (getField fs "keepalive_period")
    let mtu ← decInt64 base.mtu (getField fs "mtu")
    let initialPacketSize ← decUInt16 base.initialPacketSize (getField fs "initial_packet_size")
    let reconnectDelay ← decDuration base.reconnectDelay (getField fs "reconnect_delay")
    let connectionTimeout ← decDuration base.connectionTimeout (getField fs "connection_timeout")
    let idleTimeout ← decDuration base.idleTimeout (getField fs "idle_timeout")
    some ⟨connectPort, dns, dnsTimeout, useIPv6, noTunnelIPv4, noTunnelIPv6, sniAddress,
          keepalivePeriod, mtu, initialPacketSize, reconnectDelay, connectionTimeout, idleTimeout⟩
  | _ => none

/-- JSON encoding of Config, mirroring its field tags; this is the value
SaveConfig writes (prettification is textual only). -/
def Config.toJson (c : Config) : Json :=
  .obj [("private_key", .str c.privateKey),
        ("endpoint_v4", .str c.endpointV4),
        ("endpoint_v6", .str c.endpointV6),
        ("endpoint_pub_key", .str c.endpointPubKey),
        ("license", .str c.license),
        ("id", .str c.id),
        ("access_token", .str c.accessToken),
        ("ipv4", .str c.ipv4),
        ("ipv6", .str c.ipv6),
        ("socks", c.socks.toJson),
        ("http", c.http.toJson),
        ("tunnel", c.tunnel.toJson)]

/-- encoding/json decode of a JSON value into an existing Config, the
operation LoadConfig performs on the global AppConfig. -/
def Config.fromJsonInto (base : Config) : Json → Option Config
  | .null => some base
  | .obj fs => do
    let privateKey ← decStr base.privateKey (getField fs "private_key")
    let endpointV4 ← decStr base.endpointV4 (getField fs "endpoint_v4")
    let endpointV6 ← decStr base.endpointV6 (getField fs "endpoint_v6")
    let endpointPubKey ← decStr base.endpointPubKey (getField fs "endpoint_pub_key")
    let license ← decStr base.license (getField fs "license")
    let id ← decStr base.id (getField fs "id")
    let accessToken ← decStr base.accessToken (getField fs "access_token")
    let ipv4 ← decStr base.ipv4 (getField fs "ipv4")
    let ipv6 ← decStr base.ipv6 (getField fs "ipv6")
    let socks ← match getField fs "socks" with
      | none => some base.socks
      | some j => base.socks.fromJsonInto j
    let http ← match getField fs "http" with
      | none => some base.http
      | some j => base.http.fromJsonInto j
    let tunnel ← match getField fs "tunnel" with
      | none => some base.tunnel
      | some j => base.tunnel.fromJsonInto j
    some ⟨privateKey, endpointV4, endpointV6, endpointPubKey, license, id, accessToken,
          ipv4, ipv6, socks, http, tunnel⟩
  | _ => none

/-- A configuration all of whose machine-integer fields fit their Go types
(always true of a value held in the Go process; stated explicitly because
the model uses unbounded integers). -/
def Config.wellFormed (c : Config) : Bool :=
  int64InRange c.socks.tcpBuf && int64InRange c.socks.udpBuf &&
  int64InRange c.http.tcpBuf && int64InRange c.http.udpBuf &&
  int64InRange c.tunnel.connectPort && int64InRange c.tunnel.mtu &&
  uint16InRange c.tunnel.initialPacketSize

/-- The process-global mutable state of the config package: the AppConfig
variable and the ConfigLoaded flag. -/
structure ConfigState where
  appConfig : Config
  configLoaded : Bool
deriving Repr, DecidableEq

/-- config.go LoadConfig: the file contents stand in for the path (none
models a file that cannot be opened, some j a file whose JSON document is
j; a file whose text is not JSON at all also decodes to an error, which
none of the claims distinguish from a shape error). On success the decoded
value replaces AppConfig and ConfigLoaded is set; on failure the state is
returned as it was (Go may leave partial field updates in AppConfig on a
late decode error, which no claim depends on; ConfigLoaded is untouched
either way, which is what the claims are about). -/
def LoadConfig (st : ConfigState) (file : Option Json) : ConfigState × Except String Unit :=
  match file with
  | none => (st, .error "failed to open config file")
  | some j =>
    match Config.fromJsonInto st.appConfig j with
    | none => (st, .error "failed to decode config file")
    | some c => (⟨c, true⟩, .ok ())

/-- config.go SaveConfig: declared with a *Config receiver but encodes the
global AppConfig; the receiver is taken as an explicit first argument and
the written JSON document is returned (file creation errors are below the
claims). -/
def SaveConfig (_receiver : Config) (appConfig : Config) : Json :=
  Config.toJson appConfig

/-- The dynamic type of a key parsed by x509.ParsePKIXPublicKey: an ECDSA
key or a key of some other algorithm (the case the type assertion in
GetEcEndpointPublicKey rejects). -/
inductive PubKeyKind where
  | ecdsa
  | otherAlg
deriving Repr, DecidableEq

/-- The standard-library and sibling-package functions socksCmd.Run calls
whose bodies are outside this repository snapshot, abstracted as
parameters: the DER and PKIX parsers and the PEM decoder from crypto/x509
and encoding/pem, certificate and TLS-context construction from
internal/api, and netip.ParseAddr (which returns the parsed address,
modelled by its string). -/
structure Externals where
  parseECPrivateKey : List Nat → Option Unit
  pemDecode : String → Option (List Nat)
  parsePKIXPublicKey : List Nat → Option PubKeyKind
  generateCertOk : Bool
  prepareTlsOk : Bool
  parseAddr : String → Option String

/-- config.go GetEcPrivateKey: a *Config receiver that is ignored; the
global AppConfig's PrivateKey string is base64-decoded and the DER bytes
parsed as an ECDSA private key. -/
def GetEcPrivateKey (ext : Externals) (_receiver : Config) (appConfig : Config) :
    Except String Unit :=
  match base64Decode appConfig.privateKey with
  | none => .error "failed to decode private key"
  | some der =>
    match ext.parseECPrivateKey der with
    | none => .error "failed to parse private key"
    | some k => .ok k

/-- config.go GetEcEndpointPublicKey: a *Config receiver that is ignored;
the global AppConfig's EndpointPubKey string is PEM-decoded, the block
bytes parsed as a PKIX public key, and the result type-asserted to be an
ECDSA key. -/
def GetEcEndpointPublicKey (ext : Externals) (_receiver : Config) (appConfig : Config) :
    Except String Unit :=
  match ext.pemDecode appConfig.endpointPubKey with
  | none => .error "failed to decode endpoint public key"
  | some block =>
    match ext.parsePKIXPublicKey block with
    | none => .error "failed to parse public key"
    | some .ecdsa => .ok ()
    | some .otherAlg => .error "failed to assert public key as ECDSA"

/-- A UDP address as socksCmd builds it: the endpoint address string
(net.ParseIP of it is below the claims) and the port. -/
structure UDPAddr where
  ip : String
  port : Int
deriving Repr, DecidableEq

/-- socks.go lines 105-116: the outer endpoint. The ipv6 flag read is an
Option Bool, none modelling a read error; the v4 endpoint is chosen
exactly when the read succeeds with value false. -/
def selectEndpoint (cfg : Config) (connectPort : Int) (ipv6Flag : Option Bool) : UDPAddr :=
  if ipv6Flag = some false then ⟨cfg.endpointV4, connectPort⟩
  else ⟨cfg.endpointV6, connectPort⟩

/-- The socks command flag values at Run time, with the Changed markers the
code consults when overriding flags from the config. The ipv6 flag carries
its read result; the other flag reads cannot fail for registered flags and
their error returns are not modelled. The tcp-buf, udp-buf and timeout
options (socks.go lines 200-225) only shape buffer pools and are below the
claims. -/
structure SocksFlags where
  bindAddress : String
  port : String
  username : String
  password : String
  connectPort : Int
  dns : List String
  dnsTimeout : Int
  ipv6 : Option Bool
  noTunnelIPv4 : Bool
  noTunnelIPv6 : Bool
  sniAddress : String
  keepalivePeriod : Int
  mtu : Int
  initialPacketSize : Int
  reconnectDelay : Int
  localDNS : Bool
  changedBind : Bool
  changedPort : Bool
  changedUsername : Bool
  changedPassword : Bool

/-- socks.go lines 130-146: the inner (local) addresses handed to
CreateNetTUN; each enabled family parses the corresponding configured
address and a parse failure prints and returns. -/
def parseLocalAddresses (pa : String → Option String) (cfg : Config)
    (noV4 noV6 : Bool) : Except String (List String) := do
  let l1 : List String ←
    if noV4 then pure []
    else
      match pa cfg.ipv4 with
      | none => throw "Failed to parse IPv4 address"
      | some a => pure [a]
  let l2 : List String ←
    if noV6 then pure []
    else
      match pa cfg.ipv6 with
      | none => throw "Failed to parse IPv6 address"
      | some a => pure [a]
  pure (l1 ++ l2)

/-- socks.go lines 154-162: every configured DNS server string must parse. -/
def parseDnsAddrs (pa : String → Option String) : List String → Except String (List String)
  | [] => .ok []
  | d :: rest =>
    match pa d with
    | none => .error "Failed to parse DNS server"
    | some a =>
      match parseDnsAddrs pa rest with
      | .error e => .error e
      | .ok as' => .ok (a :: as')

/-- socks.go lines 92-94 with 185-189: the username flag is overridden from
the config when unchanged and the config value is non-empty, then used if
non-empty (using the empty string otherwise leaves the local variable at
its empty zero value, the same string). The surrounding ConfigLoaded guard
holds on this path. -/
def effectiveUsername (cfg : Config) (fl : SocksFlags) : String :=
  if fl.changedUsername = false ∧ cfg.socks.username ≠ "" then cfg.socks.username
  else fl.username

/-- socks.go lines 95-97 with 190-192: the password, symmetrically. -/
def effectivePassword (cfg : Config) (fl : SocksFlags) : String :=
  if fl.changedPassword = false ∧ cfg.socks.password ≠ "" then cfg.socks.password
  else fl.password

/-- socks.go lines 74-81: the bind address, overridden from the config when
the flag is unchanged and the config value is non-empty. -/
def effectiveBind (cfg : Config) (fl : SocksFlags) : String :=
  if fl.changedBind = false ∧ cfg.socks.bindAddress ≠ "" then cfg.socks.bindAddress
  else fl.bindAddress

/-- socks.go lines 83-90: the port, symmetrically. -/
def effectivePort (cfg : Config) (fl : SocksFlags) : String :=
  if fl.changedPort = false ∧ cfg.socks.port ≠ "" then cfg.socks.port
  else fl.port

/-- socks.go lines 266-274: the WithAuthMethods option with
StaticCredentials mapping the username to the password is appended exactly
when both are non-empty. -/
def authOpt (username password : String) : Option (String × String) :=
  if username ≠ "" ∧ password ≠ "" then some (username, password) else none

/-- Modelled from the spec: netstack.CreateNetTUN (the VirtualStack
constructor) is outside the snapshot; per the spec it fails exactly when
the local address list is empty or the MTU is nonsensical (below 576 or
above 65535). -/
def createNetTUNFails (localAddrs : List String) (mtu : Int) : Bool :=
  localAddrs.isEmpty || decide (mtu < 576) || decide (65535 < mtu)

/-- The DNS resolver as socks.go lines 236-241 constructs it: whether the
TunNet field carries the virtual stack network (nil when local-dns is
set), the server list and the query timeout. -/
structure ResolverParams where
  viaTunnel : Bool
  dnsAddrs : List String
  timeout : Int
deriving Repr, DecidableEq

/-- What the SOCKS5 server is constructed and started with: the listen
address, the resolver, and the optional username/password credential. -/
structure ProxyParams where
  bindAddress : String
  port : String
  resolver : ResolverParams
  auth : Option (String × String)
deriving Repr, DecidableEq

/-- The observable events of one socksCmd.Run invocation, in order. -/
inductive SocksEvent where
  | printedNotLoaded
  | printedError (msg : String)
  | generatedCert
  | preparedTls
  | warnedMTU
  | createdTunAttempt (localAddrs : List String) (dnsAddrs : List String) (mtu : Int)
  | startedTunnel (endpoint : UDPAddr) (keepalivePeriod : Int) (initialPacketSize : Int)
      (mtu : Int) (reconnectDelay : Int)
  | startedProxy (p : ProxyParams)
deriving Repr, DecidableEq

/-- socks.go lines 227-281: CreateNetTUN with the gathered addresses and
MTU; on success the MaintainTunnel goroutine is launched and the SOCKS5
server started with the resolver and optional authentication. -/
def socksTunnelPhase (cfg : Config) (fl : SocksFlags) (la ds : List String) :
    List SocksEvent :=
  [SocksEvent.createdTunAttempt la ds fl.mtu] ++
  (if createNetTUNFails la fl.mtu then
    [SocksEvent.printedError "Failed to create virtual TUN device"]
  else
    [SocksEvent.startedTunnel (selectEndpoint cfg fl.connectPort fl.ipv6)
       fl.keepalivePeriod fl.initialPacketSize fl.mtu fl.reconnectDelay,
     SocksEvent.startedProxy
       ⟨effectiveBind cfg fl, effectivePort cfg fl,
        ⟨!fl.localDNS, ds, fl.dnsTimeout⟩,
        authOpt (effectiveUsername cfg fl) (effectivePassword cfg fl)⟩])

/-- socks.go lines 118-225: address-family flags, inner address parsing,
DNS server parsing, then the MTU warning (line 181-183) before the tunnel
phase. -/
def socksAfterTls (cfg : Config) (fl : SocksFlags) (ext : Externals) : List SocksEvent :=
  match parseLocalAddresses ext.parseAddr cfg fl.noTunnelIPv4 fl.noTunnelIPv6 with
  | .error msg => [SocksEvent.printedError msg]
  | .ok la =>
    match parseDnsAddrs ext.parseAddr fl.dns with
    | .error msg => [SocksEvent.printedError msg]
    | .ok ds =>
      (if fl.mtu ≠ 1280 then [SocksEvent.warnedMTU] else []) ++
      socksTunnelPhase cfg fl la ds

/-- socks.go socksCmd.Run: the ConfigLoaded gate, key material, certificate
and TLS context, then the address/DNS/MTU phase. cfg is the global
AppConfig, which is also the receiver of the two key getters. -/
def socksRun (loaded : Bool) (cfg : Config) (fl : SocksFlags) (ext : Externals) :
    List SocksEvent :=
  if loaded = false then [SocksEvent.printedNotLoaded]
  else
    match GetEcPrivateKey ext cfg cfg with
    | .error _ => [SocksEvent.printedError "Failed to get private key"]
    | .ok _ =>
      match GetEcEndpointPublicKey ext cfg cfg with
      | .error _ => [SocksEvent.printedError "Failed to get public key"]
      | .ok _ =>
        if ext.generateCertOk = false then
          [SocksEvent.printedError "Failed to generate cert"]
        else
          [SocksEvent.generatedCert] ++
          (if ext.prepareTlsOk = false then
            [SocksEvent.printedError "Failed to prepare TLS config"]
          else
            [SocksEvent.preparedTls] ++ socksAfterTls cfg fl ext)

/-- The observable events of one rootCmd.Run invocation. -/
inductive RootEvent where
  | printedNotLoaded
  | startedSocksService
  | startedHTTPService
  | printedNoServices
deriving Repr, DecidableEq

/-- root.go rootCmd.Run: the ConfigLoaded gate, then each enabled frontend
is started; with none enabled it prints and returns. -/
def rootRun (loaded : Bool) (cfg : Config) : List RootEvent :=
  if loaded = false then [RootEvent.printedNotLoaded]
  else
    let evs :=
      (if cfg.socks.enabled then [RootEvent.startedSocksService] else []) ++
      (if cfg.http.enabled then [RootEvent.startedHTTPService] else [])
    if evs = [] then [RootEvent.printedNoServices] else evs

/-- How one SOCKS5 client CONNECT ends at the server: rejected during
authentication, or dialled into the tunnel. -/
inductive ConnOutcome where
  | rejectedAuth
  | dialed (target : String)
deriving Repr, DecidableEq

/-- Modelled from the spec: the go-socks5 server with UserPassAuthenticator
over StaticCredentials rejects a client whose username/password pair does
not match the configured credential before the dial hook is invoked; with
no authenticator configured every CONNECT reaches the dial. -/
def socksHandleConnect (auth : Option (String × String)) (clientU clientP target : String) :
    ConnOutcome :=
  match auth with
  | none => .dialed target
  | some (u, p) => if clientU = u ∧ clientP = p then .dialed target else .rejectedAuth

/-- The config package state before any load: a zero AppConfig and
ConfigLoaded false, the state in which the tests run LoadConfig. -/
def initialConfigState : ConfigState := ⟨Config.zero, false⟩

/-- A config document setting a single tunnel field, the document shape of
the duration test in config_test.go. -/
def tunnelDoc (k : String) (v : Json) : Json :=
  Json.obj [("tunnel", Json.obj [(k, v)])]

/-- The tunnel section of the configuration config_test.go builds
(durations in nanoseconds). -/
def sampleTunnel : TunnelConfig :=
  ⟨443, ["1.1.1.1"], 2000000000, true, false, true, "example.com",
   30000000000, 1280, 1242, 1000000000, 20000000000, 300000000000⟩

/-- The SOCKS section of the configuration config_test.go builds. -/
def sampleSocksCfg : ProxyServerConfig :=
  ⟨"0.0.0.0", "1080", "user", "pass", true, 0, 0, 0⟩

/-- The HTTP section of the configuration config_test.go builds. -/
def sampleHttpCfg : ProxyServerConfig :=
  ⟨"0.0.0.0", "8000", "huser", "hpass", false, 0, 0, 0⟩

/-- The full configuration config_test.go builds. -/
def sampleConfig : Config :=
  ⟨"cHJpdmF0ZWtleQ==", "127.0.0.1", "::1",
   "-----BEGIN PUBLIC KEY-----\nMFkwE\n-----END PUBLIC KEY-----\n",
   "license", "device-id", "token", "172.16.0.2", "2606::1",
   sampleSocksCfg, sampleHttpCfg, sampleTunnel⟩

/-- External functions that all succeed, for exercising the success path at
concrete inputs. -/
def okExternals : Externals :=
  ⟨fun _ => some (), fun _ => some [48], fun _ => some .ecdsa, true, true, fun a => some a⟩

/-- The socks command flag defaults registered in socks.go init, with no
flag marked as changed. -/
def defaultFlags : SocksFlags :=
  ⟨"0.0.0.0", "1080", "", "", 443,
   ["9.9.9.9", "149.112.112.112", "2620:fe::fe", "2620:fe::9"], 2000000000,
   some false, false, false, "", 30000000000, 1280, 1242, 1000000000, false,
   false, false, false, false⟩

/-- The default DNS server list from socks.go init. -/
def defaultDns : List String :=
  ["9.9.9.9", "149.112.112.112", "2620:fe::fe", "2620:fe::9"]

/-- Flag values with both tunnel address families disabled. -/
def noFamiliesFlags : SocksFlags :=
  { defaultFlags with noTunnelIPv4 := true, noTunnelIPv6 := true }

/-- Flag values with a non-default MTU. -/
def oddMtuFlags : SocksFlags := { defaultFlags with mtu := 1281 }

/-- Flag values with local-dns set. -/
def localDnsFlags : SocksFlags := { defaultFlags with localDNS := true }

/-- A configuration whose stored private key is not valid base64. -/
def badKeyConfig : Config := { sampleConfig with privateKey := "%%" }

/-- Decoding a list of string JSON values recovers the strings, stated on
the mapM loop with its accumulator generalised. -/
theorem mapM_str_loop (l acc : List String) :
    List.mapM.loop (fun j => match j with | Json.str s => some s | _ => none)
      (l.map (fun s => Json.str s)) acc = some (acc.reverse ++ l) := by
  induction l generalizing acc with
  | nil => simp [List.mapM.loop]
  | cons a t ih => simp [List.mapM.loop, ih]

/-- Decoding the encoding of a ProxyServerConfig into any base recovers it. -/
theorem psc_roundtrip (base c : ProxyServerConfig)
    (h1 : int64InRange c.tcpBuf = true) (h2 : int64InRange c.udpBuf = true) :
    ProxyServerConfig.fromJsonInto base c.toJson = some c := by
  simp [ProxyServerConfig.toJson, ProxyServerConfig.fromJsonInto, getField,
    decStr, decBool, decInt64, decDuration, Duration.marshalJson, Duration.unmarshalJson, h1, h2]

/-- Decoding the encoding of a TunnelConfig into any base recovers it. -/
theorem tc_roundtrip (base c : TunnelConfig)
    (h1 : int64InRange c.connectPort = true) (h2 : int64InRange c.mtu = true)
    (h3 : uint16InRange c.initialPacketSize = true) :
    TunnelConfig.fromJsonInto base c.toJson = some c := by
  simp [TunnelConfig.toJson, TunnelConfig.fromJsonInto, getField,
    decStr, decBool, decInt64, decUInt16, decStrList, decDuration,
    Duration.marshalJson, Duration.unmarshalJson, h1, h2, h3, mapM_str_loop]

/-- Decoding the encoding of a well-formed Config into any base recovers
it, the key-order-independent round trip at the JSON value level. -/
theorem config_roundtrip (base c : Config) (h : c.wellFormed = true) :
    Config.fromJsonInto base c.toJson = some c := by
  simp only [Config.wellFormed, Bool.and_eq_true] at h
  obtain ⟨⟨⟨⟨⟨⟨h1, h2⟩, h3⟩, h4⟩, h5⟩, h6⟩, h7⟩ := h
  simp [Config.toJson, Config.fromJsonInto, getField, decStr,
    psc_roundtrip _ _ h1 h2, psc_roundtrip _ _ h3 h4, tc_roundtrip _ _ h5 h6 h7]

/-- The trace of socksCmd.Run when key material, certificate, TLS context
and all address parsing succeed: the MTU warning when applicable, then the
tunnel phase. -/
theorem socksRun_success_trace (cfg : Config) (fl : SocksFlags) (ext : Externals)
    (la ds : List String)
    (hpriv : GetEcPrivateKey ext cfg cfg = .ok ())
    (hpub : GetEcEndpointPublicKey ext cfg cfg = .ok ())
    (hcert : ext.generateCertOk = true)
    (htls : ext.prepareTlsOk = true)
    (hla : parseLocalAddresses ext.parseAddr cfg fl.noTunnelIPv4 fl.noTunnelIPv6 = .ok la)
    (hdns : parseDnsAddrs ext.parseAddr fl.dns = .ok ds) :
    socksRun true cfg fl ext =
      [SocksEvent.generatedCert, SocksEvent.preparedTls] ++
      (if fl.mtu ≠ 1280 then [SocksEvent.warnedMTU] else []) ++
      socksTunnelPhase cfg fl la ds := by
  simp [socksRun, socksAfterTls, hpriv, hpub, hcert, htls, hla, hdns]

/-- C1: for every tunnel duration field (dns_timeout, keepalive_period,
reconnect_delay, connection_timeout, idle_timeout), LoadConfig accepts the
JSON value either as an integer nanosecond count n or as a duration string
s parsing to n, both forms load successfully, and both load to the same
numeric duration value n. -/
theorem durations_load_from_int_and_string (n : Int) (s : String)
    (h : parseGoDuration s = some n) :
    (LoadConfig initialConfigState (some (tunnelDoc "dns_timeout" (Json.str s))) =
        LoadConfig initialConfigState (some (tunnelDoc "dns_timeout" (Json.num n))) ∧
      (LoadConfig initialConfigState (some (tunnelDoc "dns_timeout" (Json.num n)))).2 = .ok () ∧
      (LoadConfig initialConfigState
          (some (tunnelDoc "dns_timeout" (Json.num n)))).1.appConfig.tunnel.dnsTimeout = n) ∧
    (LoadConfig initialConfigState (some (tunnelDoc "keepalive_period" (Json.str s))) =
        LoadConfig initialConfigState (some (tunnelDoc "keepalive_period" (Json.num n))) ∧
      (LoadConfig initialConfigState (some (tunnelDoc "keepalive_period" (Json.num n)))).2 = .ok () ∧
      (LoadConfig initialConfigState
          (some (tunnelDoc "keepalive_period" (Json.num n)))).1.appConfig.tunnel.keepalivePeriod = n) ∧
    (LoadConfig initialConfigState (some (tunnelDoc "reconnect_delay" (Json.str s))) =
        LoadConfig initialConfigState (some (tunnelDoc "reconnect_delay" (Json.num n))) ∧
      (LoadConfig initialConfigState (some (tunnelDoc "reconnect_delay" (Json.num n)))).2 = .ok () ∧
      (LoadConfig initialConfigState
          (some (tunnelDoc "reconnect_delay" (Json.num n)))).1.appConfig.tunnel.reconnectDelay = n) ∧
    (LoadConfig initialConfigState (some (tunnelDoc "connection_timeout" (Json.str s))) =
        LoadConfig initialConfigState (some (tunnelDoc "connection_timeout" (Json.num n))) ∧
      (LoadConfig initialConfigState (some (tunnelDoc "connection_timeout" (Json.num n)))).2 = .ok () ∧
      (LoadConfig initialConfigState
          (some (tunnelDoc "connection_timeout" (Json.num n)))).1.appConfig.tunnel.connectionTimeout = n) ∧
    (LoadConfig initialConfigState (some (tunnelDoc "idle_timeout" (Json.str s))) =
        LoadConfig initialConfigState (some (tunnelDoc "idle_timeout" (Json.num n))) ∧
      (LoadConfig initialConfigState (some (tunnelDoc "idle_timeout" (Json.num n)))).2 = .ok () ∧
      (LoadConfig initialConfigState
          (some (tunnelDoc "idle_timeout" (Json.num n)))).1.appConfig.tunnel.idleTimeout = n) := by
  refine ⟨⟨?_, rfl, rfl⟩, ⟨?_, rfl, rfl⟩, ⟨?_, rfl, rfl⟩, ⟨?_, rfl, rfl⟩, ⟨?_, rfl, rfl⟩⟩ <;>
    simp [LoadConfig, tunnelDoc, Config.fromJsonInto, TunnelConfig.fromJsonInto, getField,
      decStr, decBool, decInt64, decUInt16, decStrList, decDuration, Duration.unmarshalJson, h,
      Config.zero, TunnelConfig.zero, ProxyServerConfig.zero]

/-- C1 witness: the duration string 3s and the integer 3000000000 load
the dns_timeout field identically, as in config_test.go. -/
theorem durations_load_witness :
    LoadConfig initialConfigState (some (tunnelDoc "dns_timeout" (Json.str "3s"))) =
      LoadConfig initialConfigState (some (tunnelDoc "dns_timeout" (Json.num 3000000000))) ∧
    (LoadConfig initialConfigState (some (tunnelDoc "dns_timeout" (Json.num 3000000000)))).2 = .ok () ∧
    (LoadConfig initialConfigState
        (some (tunnelDoc "dns_timeout" (Json.num 3000000000)))).1.appConfig.tunnel.dnsTimeout =
      3000000000 :=
  (durations_load_from_int_and_string 3000000000 "3s" rfl).1

/-- C2: saving any well-formed configuration (SaveConfig encodes the global
AppConfig g, whatever the receiver) and loading the written document from
any prior state yields g in memory, with ConfigLoaded set and no error. -/
theorem save_then_load_roundtrip (receiver g : Config) (st : ConfigState)
    (h : g.wellFormed = true) :
    LoadConfig st (some (SaveConfig receiver g)) = (⟨g, true⟩, .ok ()) := by
  simp [LoadConfig, SaveConfig, config_roundtrip st.appConfig g h]

/-- C2 witness: the round trip at the configuration config_test.go uses. -/
theorem save_then_load_roundtrip_witness :
    LoadConfig initialConfigState (some (SaveConfig Config.zero sampleConfig)) =
      (⟨sampleConfig, true⟩, .ok ()) :=
  save_then_load_roundtrip Config.zero sampleConfig initialConfigState (by decide)

/-- C3: the outer endpoint UDP address is EndpointV4 with the connect port
exactly when the ipv6 flag reads false; when it reads true, or cannot be
read at all, it is EndpointV6 with the connect port. -/
theorem endpoint_family_selection (cfg : Config) (port : Int) :
    selectEndpoint cfg port (some false) = ⟨cfg.endpointV4, port⟩ ∧
    selectEndpoint cfg port (some true) = ⟨cfg.endpointV6, port⟩ ∧
    selectEndpoint cfg port none = ⟨cfg.endpointV6, port⟩ :=
  ⟨rfl, by simp [selectEndpoint], by simp [selectEndpoint]⟩

/-- C4: with no_tunnel_ipv4 and no_tunnel_ipv6 both true, no inner address
is parsed (the address phase succeeds with the empty list under every
parse function), the empty list is handed to virtual-stack construction,
construction is rejected, and the command returns with neither the tunnel
nor the proxy started. -/
theorem both_families_disabled_rejected (cfg : Config) (fl : SocksFlags) (ext : Externals)
    (ds : List String)
    (hpriv : GetEcPrivateKey ext cfg cfg = .ok ())
    (hpub : GetEcEndpointPublicKey ext cfg cfg = .ok ())
    (hcert : ext.generateCertOk = true)
    (htls : ext.prepareTlsOk = true)
    (h4 : fl.noTunnelIPv4 = true)
    (h6 : fl.noTunnelIPv6 = true)
    (hdns : parseDnsAddrs ext.parseAddr fl.dns = .ok ds) :
    (∀ (pa : String → Option String) (c : Config), parseLocalAddresses pa c true true = .ok []) ∧
    socksRun true cfg fl ext =
      [SocksEvent.generatedCert, SocksEvent.preparedTls] ++
      (if fl.mtu ≠ 1280 then [SocksEvent.warnedMTU] else []) ++
      [SocksEvent.createdTunAttempt [] ds fl.mtu,
       SocksEvent.printedError "Failed to create virtual TUN device"] := by
  have hempty : ∀ (pa : String → Option String) (c : Config),
      parseLocalAddresses pa c true true = .ok [] := by
    intro pa c
    simp [parseLocalAddresses]
    rfl
  refine ⟨hempty, ?_⟩
  have hla : parseLocalAddresses ext.parseAddr cfg fl.noTunnelIPv4 fl.noTunnelIPv6 = .ok [] := by
    rw [h4, h6]; exact hempty _ _
  rw [socksRun_success_trace cfg fl ext [] ds hpriv hpub hcert htls hla hdns]
  simp [socksTunnelPhase, createNetTUNFails]

/-- C4 witness: at concrete inputs with both families disabled, the trace
ends at the construction failure. -/
theorem both_families_disabled_rejected_witness :
    socksRun true sampleConfig noFamiliesFlags okExternals =
      [SocksEvent.generatedCert, SocksEvent.preparedTls,
       SocksEvent.createdTunAttempt [] defaultDns 1280,
       SocksEvent.printedError "Failed to create virtual TUN device"] :=
  (both_families_disabled_rejected sampleConfig noFamiliesFlags okExternals defaultDns
      rfl rfl rfl rfl rfl rfl rfl).2

/-- C5: a stored private key that is not valid base64 DER ECDSA material
makes GetEcPrivateKey return an error (whether the base64 decode or the
DER parse fails); a stored endpoint public key that is not valid PEM PKIX
ECDSA material makes GetEcEndpointPublicKey return an error (whether the
PEM decode, the PKIX parse or the ECDSA type assertion fails); in either
case socksCmd.Run prints the failure and returns before generating a
certificate, building a TLS config or starting any tunnel session. -/
theorem invalid_key_material_fatal (ext : Externals) (cfg : Config) (fl : SocksFlags) :
    (base64Decode cfg.privateKey = none → ∃ e, GetEcPrivateKey ext cfg cfg = .error e) ∧
    (∀ der, base64Decode cfg.privateKey = some der → ext.parseECPrivateKey der = none →
      ∃ e, GetEcPrivateKey ext cfg cfg = .error e) ∧
    (ext.pemDecode cfg.endpointPubKey = none →
      ∃ e, GetEcEndpointPublicKey ext cfg cfg = .error e) ∧
    (∀ bs, ext.pemDecode cfg.endpointPubKey = some bs → ext.parsePKIXPublicKey bs = none →
      ∃ e, GetEcEndpointPublicKey ext cfg cfg = .error e) ∧
    (∀ bs, ext.pemDecode cfg.endpointPubKey = some bs →
      ext.parsePKIXPublicKey bs = some .otherAlg →
      ∃ e, GetEcEndpointPublicKey ext cfg cfg = .error e) ∧
    (∀ e, GetEcPrivateKey ext cfg cfg = .error e →
      socksRun true cfg fl ext = [SocksEvent.printedError "Failed to get private key"]) ∧
    (∀ e, GetEcPrivateKey ext cfg cfg = .ok () → GetEcEndpointPublicKey ext cfg cfg = .error e →
      socksRun true cfg fl ext = [SocksEvent.printedError "Failed to get public key"]) := by
  refine ⟨?_, ?_, ?_, ?_, ?_, ?_, ?_⟩
  · intro h
    exact ⟨"failed to decode private key", by simp [GetEcPrivateKey, h]⟩
  · intro der h hp
    exact ⟨"failed to parse private key", by simp [GetEcPrivateKey, h, hp]⟩
  · intro h
    exact ⟨"failed to decode endpoint public key", by simp [GetEcEndpointPublicKey, h]⟩
  · intro bs h hp
    exact ⟨"failed to parse public key", by simp [GetEcEndpointPublicKey, h, hp]⟩
  · intro bs h hp
    exact ⟨"failed to assert public key as ECDSA", by simp [GetEcEndpointPublicKey, h, hp]⟩
  · intro e h; simp [socksRun, h]
  · intro e h1 h2; simp [socksRun, h1, h2]

/-- C5 witness: a private key that is not base64 stops the command at the
key error, with no later event. -/
theorem invalid_key_material_fatal_witness :
    socksRun true badKeyConfig defaultFlags okExternals =
      [SocksEvent.printedError "Failed to get private key"] :=
  (invalid_key_material_fatal okExternals badKeyConfig defaultFlags).2.2.2.2.2.1
    "failed to decode private key" rfl

/-- C6: on the path where keys, certificate, TLS context and address
parsing succeed, the MTU warning is logged exactly when the MTU differs
from 1280; virtual-stack construction is still attempted with that MTU,
and when construction succeeds the proxy starts, so the warning never
prevents startup. -/
theorem mtu_warning_does_not_prevent_startup (cfg : Config) (fl : SocksFlags) (ext : Externals)
    (la ds : List String)
    (hpriv : GetEcPrivateKey ext cfg cfg = .ok ())
    (hpub : GetEcEndpointPublicKey ext cfg cfg = .ok ())
    (hcert : ext.generateCertOk = true)
    (htls : ext.prepareTlsOk = true)
    (hla : parseLocalAddresses ext.parseAddr cfg fl.noTunnelIPv4 fl.noTunnelIPv6 = .ok la)
    (hdns : parseDnsAddrs ext.parseAddr fl.dns = .ok ds) :
    (SocksEvent.warnedMTU ∈ socksRun true cfg fl ext ↔ fl.mtu ≠ 1280) ∧
    SocksEvent.createdTunAttempt la ds fl.mtu ∈ socksRun true cfg fl ext ∧
    (createNetTUNFails la fl.mtu = false →
      SocksEvent.startedProxy
        ⟨effectiveBind cfg fl, effectivePort cfg fl,
         ⟨!fl.localDNS, ds, fl.dnsTimeout⟩,
         authOpt (effectiveUsername cfg fl) (effectivePassword cfg fl)⟩ ∈
        socksRun true cfg fl ext) := by
  rw [socksRun_success_trace cfg fl ext la ds hpriv hpub hcert htls hla hdns]
  refine ⟨?_, ?_, ?_⟩
  · by_cases hm : fl.mtu = 1280
    · simp [socksTunnelPhase, hm]
      split <;> simp
    · simp [socksTunnelPhase, hm]
  · by_cases hf : createNetTUNFails la fl.mtu <;>
      simp [socksTunnelPhase, hf]
  · intro hf
    simp [socksTunnelPhase, hf]

/-- C6 witness: MTU 1281 warns (and at MTU 1280 the default-flag success
trace would carry no warning, per the iff). -/
theorem mtu_warning_witness :
    SocksEvent.warnedMTU ∈ socksRun true sampleConfig oddMtuFlags okExternals :=
  ((mtu_warning_does_not_prevent_startup sampleConfig oddMtuFlags okExternals
      ["172.16.0.2", "2606::1"] defaultDns rfl rfl rfl rfl rfl rfl).1).mpr (by decide)

/-- C7: the SOCKS5 server is constructed with username/password
authentication exactly when both the effective username and the effective
password are non-empty (the started-proxy event carries authOpt of the
two effective values); and with authentication configured, a client whose
credentials do not match is rejected at the SOCKS5 layer, so no tunnel
dial happens for it. -/
theorem socks_auth_iff_both_credentials (cfg : Config) (fl : SocksFlags) (ext : Externals)
    (la ds : List String)
    (hpriv : GetEcPrivateKey ext cfg cfg = .ok ())
    (hpub : GetEcEndpointPublicKey ext cfg cfg = .ok ())
    (hcert : ext.generateCertOk = true)
    (htls : ext.prepareTlsOk = true)
    (hla : parseLocalAddresses ext.parseAddr cfg fl.noTunnelIPv4 fl.noTunnelIPv6 = .ok la)
    (hdns : parseDnsAddrs ext.parseAddr fl.dns = .ok ds)
    (htun : createNetTUNFails la fl.mtu = false) :
    (∀ u p : String, (authOpt u p).isSome = true ↔ (u ≠ "" ∧ p ≠ "")) ∧
    SocksEvent.startedProxy
      ⟨effectiveBind cfg fl, effectivePort cfg fl,
       ⟨!fl.localDNS, ds, fl.dnsTimeout⟩,
       authOpt (effectiveUsername cfg fl) (effectivePassword cfg fl)⟩ ∈
      socksRun true cfg fl ext ∧
    (∀ u p cu cp t, (authOpt u p).isSome = true → ¬(cu = u ∧ cp = p) →
      socksHandleConnect (authOpt u p) cu cp t = ConnOutcome.rejectedAuth) := by
  refine ⟨?_, ?_, ?_⟩
  · intro u p
    by_cases hu : u = "" <;> by_cases hp : p = "" <;> simp [authOpt, hu, hp]
  · rw [socksRun_success_trace cfg fl ext la ds hpriv hpub hcert htls hla hdns]
    simp [socksTunnelPhase, htun]
  · intro u p cu cp t hs hne
    by_cases hu : u = "" <;> by_cases hp : p = "" <;>
      simp [authOpt, hu, hp, socksHandleConnect] at hs ⊢
    · intro hcu hcp
      exact hne ⟨hcu, hcp⟩

/-- C7 witness: with credentials user/pass configured, a client presenting
a wrong password is rejected before any dial. -/
theorem socks_auth_witness :
    socksHandleConnect (authOpt "user" "pass") "user" "wrong" "example.com:443" =
      ConnOutcome.rejectedAuth :=
  (socks_auth_iff_both_credentials sampleConfig defaultFlags okExternals
      ["172.16.0.2", "2606::1"] defaultDns rfl rfl rfl rfl rfl rfl rfl).2.2
    "user" "pass" "user" "wrong" "example.com:443" rfl (by decide)

/-- C8: on the success path, when local-dns is set the resolver in the
started proxy is constructed without the virtual stack network (TunNet
nil, bypassing the VirtualStack), and when it is not set the resolver is
constructed over the virtual stack network; in both modes it carries the
parsed DNS server list and the dns-timeout flag value. -/
theorem resolver_tunnel_or_bypass (cfg : Config) (fl : SocksFlags) (ext : Externals)
    (la ds : List String)
    (hpriv : GetEcPrivateKey ext cfg cfg = .ok ())
    (hpub : GetEcEndpointPublicKey ext cfg cfg = .ok ())
    (hcert : ext.generateCertOk = true)
    (htls : ext.prepareTlsOk = true)
    (hla : parseLocalAddresses ext.parseAddr cfg fl.noTunnelIPv4 fl.noTunnelIPv6 = .ok la)
    (hdns : parseDnsAddrs ext.parseAddr fl.dns = .ok ds)
    (htun : createNetTUNFails la fl.mtu = false) :
    (fl.localDNS = true →
      SocksEvent.startedProxy
        ⟨effectiveBind cfg fl, effectivePort cfg fl, ⟨false, ds, fl.dnsTimeout⟩,
         authOpt (effectiveUsername cfg fl) (effectivePassword cfg fl)⟩ ∈
        socksRun true cfg fl ext) ∧
    (fl.localDNS = false →
      SocksEvent.startedProxy
        ⟨effectiveBind cfg fl, effectivePort cfg fl, ⟨true, ds, fl.dnsTimeout⟩,
         authOpt (effectiveUsername cfg fl) (effectivePassword cfg fl)⟩ ∈
        socksRun true cfg fl ext) := by
  rw [socksRun_success_trace cfg fl ext la ds hpriv hpub hcert htls hla hdns]
  constructor
  · intro h; simp [socksTunnelPhase, htun, h]
  · intro h; simp [socksTunnelPhase, htun, h]

/-- C8 witness: with local-dns set, the started proxy carries a resolver
that bypasses the virtual stack yet keeps the default DNS list and the
2 second timeout. -/
theorem resolver_bypass_witness :
    SocksEvent.startedProxy
      ⟨"0.0.0.0", "1080", ⟨false, defaultDns, 2000000000⟩, some ("user", "pass")⟩ ∈
      socksRun true sampleConfig localDnsFlags okExternals :=
  (resolver_tunnel_or_bypass sampleConfig localDnsFlags okExternals
      ["172.16.0.2", "2606::1"] defaultDns rfl rfl rfl rfl rfl rfl rfl).1 rfl

/-- C9: SaveConfig, GetEcPrivateKey and GetEcEndpointPublicKey ignore
their Config receiver and operate on the global AppConfig: the saved
document is the encoding of the global (not the receiver), every result
is receiver-independent, and each key getter depends only on the global
AppConfig's corresponding key field. -/
theorem methods_ignore_receiver (c c' g : Config) (ext : Externals) :
    SaveConfig c g = Config.toJson g ∧
    SaveConfig c g = SaveConfig c' g ∧
    GetEcPrivateKey ext c g = GetEcPrivateKey ext c' g ∧
    GetEcEndpointPublicKey ext c g = GetEcEndpointPublicKey ext c' g ∧
    (∀ g' : Config, g.privateKey = g'.privateKey →
      GetEcPrivateKey ext c g = GetEcPrivateKey ext c g') ∧
    (∀ g' : Config, g.endpointPubKey = g'.endpointPubKey →
      GetEcEndpointPublicKey ext c g = GetEcEndpointPublicKey ext c g') := by
  refine ⟨rfl, rfl, rfl, rfl, ?_, ?_⟩
  · intro g' h; simp [GetEcPrivateKey, h]
  · intro g' h; simp [GetEcEndpointPublicKey, h]

/-- C10: LoadConfig sets ConfigLoaded exactly on success: an unopenable
file or an undecodable document yields an error and leaves ConfigLoaded
as it was; and with ConfigLoaded false both rootCmd.Run and socksCmd.Run
print the not-loaded message and return without starting any service. -/
theorem config_loaded_gate (st : ConfigState) (file : Option Json) (cfg : Config)
    (fl : SocksFlags) (ext : Externals) :
    ((LoadConfig st file).2 = .ok () → (LoadConfig st file).1.configLoaded = true) ∧
    (∀ e, (LoadConfig st file).2 = .error e →
      (LoadConfig st file).1.configLoaded = st.configLoaded) ∧
    (file = none → ∃ e, (LoadConfig st file).2 = .error e) ∧
    (∀ j, file = some j → Config.fromJsonInto st.appConfig j = none →
      ∃ e, (LoadConfig st file).2 = .error e) ∧
    rootRun false cfg = [RootEvent.printedNotLoaded] ∧
    socksRun false cfg fl ext = [SocksEvent.printedNotLoaded] := by
  refine ⟨?_, ?_, ?_, ?_, by simp [rootRun], by simp [socksRun]⟩
  · intro h
    match hf : file with
    | none => simp [LoadConfig] at h
    | some j =>
      simp only [LoadConfig] at h ⊢
      match hd : Config.fromJsonInto st.appConfig j with
      | none => simp [hd] at h
      | some c => simp [hd]
  · intro e h
    match hf : file with
    | none => simp [LoadConfig]
    | some j =>
      simp only [LoadConfig] at h ⊢
      match hd : Config.fromJsonInto st.appConfig j with
      | none => simp [hd]
      | some c => simp [hd] at h
  · intro h; subst h; exact ⟨"failed to open config file", rfl⟩
  · intro j h hd; subst h; simp [LoadConfig, hd]

/-- C10 witness: with the configuration not loaded, both commands print
the not-loaded message and nothing else. -/
theorem config_loaded_gate_witness :
    rootRun false sampleConfig = [RootEvent.printedNotLoaded] ∧
    socksRun false sampleConfig defaultFlags okExternals = [SocksEvent.printedNotLoaded] :=
  (config_loaded_gate initialConfigState none sampleConfig defaultFlags okExternals).2.2.2.2
